import Mathlib

/-!
Verification of the square ownership/pricing ledger of the DrawInTheBox
("The Million Dollar Painting") application.

The definitions below are a shallow embedding of the TypeScript source:
* `src/src/utils/gridUtils.ts` — grid constants, id/position arithmetic,
  grid initialization, validity predicates;
* the `App` component (`src/README.md`) — `finalizeSquarePurchase`,
  `handleSquareClick`, `handleSaveDrawing`, the `onSnapshot` reconciliation
  and the `PaymentModal` `amount` prop.

JavaScript semantics that matter are modelled explicitly: numbers used as
ids/prices are integers (`Nat`/`Int`), `null`/`undefined` become `Option`,
the falsiness of `0` and of the empty string in guards like
`!selectedSquare` and `data.imageData || null` is spelled out, and the `%`
and `Math.floor(... / ...)` of JavaScript on possibly negative integers are
`Int.tmod` and `Int.fdiv`.
-/

namespace DrawInTheBox

/-- One entry of a square's `priceHistory`, pushed by
`finalizeSquarePurchase` as `{ owner, price, timestamp }`. -/
structure HistoryEntry where
  owner : String
  price : Nat
  timestamp : Nat
deriving DecidableEq, Repr

/-- The `Square` record of `src/types`, as initialized by `initializeGrid`
and mutated by the App handlers: `{ id, owner, price, color, imageData,
priceHistory }`. -/
structure Square where
  id : Nat
  owner : Option String
  price : Nat
  color : String
  imageData : Option String
  priceHistory : List HistoryEntry
deriving DecidableEq, Repr

/-- `GRID_SIZE = 120` from `gridUtils.ts`. -/
def GRID_SIZE : Nat := 120

/-- `INITIAL_SQUARE_PRICE = 1` from `gridUtils.ts`. -/
def INITIAL_SQUARE_PRICE : Nat := 1

/-- Position of a square, `gridUtils.ts` `SquarePosition`. -/
structure SquarePosition where
  x : Int
  y : Int
deriving DecidableEq, Repr

/-- `calculateSquarePosition(id)` from `gridUtils.ts`:
`{ x: id % GRID_SIZE, y: Math.floor(id / GRID_SIZE) }`.
JavaScript `%` is the truncated remainder (`Int.tmod`) and
`Math.floor` of the real quotient is floor division (`Int.fdiv`).
There is no bounds check in the source. -/
def calculateSquarePosition (id : Int) : SquarePosition :=
  { x := id.tmod (GRID_SIZE : Int), y := id.fdiv (GRID_SIZE : Int) }

/-- `calculateSquareId(x, y)` from `gridUtils.ts`: `y * GRID_SIZE + x`.
There is no bounds check in the source. -/
def calculateSquareId (x y : Int) : Int :=
  y * (GRID_SIZE : Int) + x

/-- `isValidSquareId(id)` from `gridUtils.ts`:
`id >= 0 && id < GRID_SIZE * GRID_SIZE`. -/
def isValidSquareId (id : Int) : Bool :=
  0 ≤ id && id < ((GRID_SIZE * GRID_SIZE : Nat) : Int)

/-- `isValidSquarePosition(x, y)` from `gridUtils.ts`:
`x >= 0 && x < GRID_SIZE && y >= 0 && y < GRID_SIZE`. -/
def isValidSquarePosition (x y : Int) : Bool :=
  0 ≤ x && x < (GRID_SIZE : Int) && (0 ≤ y && y < (GRID_SIZE : Int))

/-- `initializeGrid()` from `gridUtils.ts`: `GRID_SIZE * GRID_SIZE` squares,
square `i` being `{ id: i, owner: null, price: 1, color: "#ffffff",
imageData: null, priceHistory: [] }`. -/
def initializeGrid : List Square :=
  (List.range (GRID_SIZE * GRID_SIZE)).map fun i =>
    { id := i, owner := none, price := 1, color := "#ffffff",
      imageData := none, priceHistory := [] }

/-- JavaScript truthiness of a `string | null | undefined` value:
`null`, `undefined` and `""` are falsy. -/
def jsTruthy : Option String → Bool
  | some s => !s.isEmpty
  | none => false

/-- `squares.find(s => s.id === selectedSquare)`, used by
`handleSquareClick` and `finalizeSquarePurchase`. -/
def findSquare (squares : List Square) (k : Nat) : Option Square :=
  squares.find? fun s => s.id == k

/-- The price computed inside `finalizeSquarePurchase`:
`const price = isOwned ? square.price * 2 : square.price;` — this is the
quoted price of the spec (double the current price for an owned cell, the
listing price for an unowned one). -/
def quotedPrice (square : Square) : Nat :=
  if square.owner.isSome then square.price * 2 else square.price

/-- The body of the `prevSquares.map(...)` updater inside
`finalizeSquarePurchase` (lambda-lifted): for the square whose id matches
`selectedSquare` it sets `owner` to the buyer and `price` to the
precomputed price, resets `color`/`imageData` to the defaults when the
cell was unowned (`isOwned` is computed from the found square), and
appends `{ owner: s.owner, price: s.price, timestamp }` to `priceHistory`
when `isOwned && s.owner`; every other square is returned unchanged. -/
def purchaseUpdate (k : Nat) (isOwned : Bool) (price : Nat)
    (buyer : String) (now : Nat) (s : Square) : Square :=
  if s.id == k then
    { s with
      owner := some buyer
      price := price
      color := if isOwned then s.color else "#ffffff"
      imageData := if isOwned then s.imageData else none
      priceHistory := s.priceHistory ++
        (if isOwned then
          (match s.owner with
           | some prev => [{ owner := prev, price := s.price, timestamp := now }]
           | none => [])
         else []) }
  else s

/-- `finalizeSquarePurchase` from the `App` component (local
`setSquares` update): guard `if (!selectedSquare || !user) return;`
(note that square id `0` is falsy in JavaScript, so it also early-returns),
find the selected square (early return when absent), compute
`isOwned`/`price`, and map `purchaseUpdate` over the grid.  `none` models
the early returns (no state produced); `some` is the updated grid. -/
def finalizeSquarePurchase (squares : List Square) :
    Option Nat → Option String → Nat → Option (List Square)
  | some k, some buyer, now =>
    if k = 0 then none
    else
      match findSquare squares k with
      | none => none
      | some square =>
          some (squares.map
            (purchaseUpdate k square.owner.isSome (quotedPrice square) buyer now))
  | _, _, _ => none

/-- The updated cell that `finalizeSquarePurchase` produces at the selected
square when the grid's ids are consistent (the mapped square is the found
one): owner becomes the buyer, price becomes the quoted price, artwork and
color are carried on the owned branch and reset to the defaults on the
unowned branch, and a history entry with the previous owner and price is
appended exactly when the cell was owned. -/
def purchaseCell (buyer : String) (now : Nat) (q : Square) : Square :=
  { q with
    owner := some buyer
    price := quotedPrice q
    color := if q.owner.isSome then q.color else "#ffffff"
    imageData := if q.owner.isSome then q.imageData else none
    priceHistory := q.priceHistory ++
      (if q.owner.isSome then
        (match q.owner with
         | some prev => [{ owner := prev, price := q.price, timestamp := now }]
         | none => [])
       else []) }

/-- The `amount` prop handed to `PaymentModal` in the `App` render:
`selectedSquare ? squares.find(s => s.id === selectedSquare)?.price || 1 : 0`.
Square id `0` is falsy, a missing square yields `undefined || 1 = 1`, and a
price of `0` would be replaced by `1` (JavaScript `||`). -/
def paymentModalAmount (squares : List Square) : Option Nat → Nat
  | none => 0
  | some 0 => 0
  | some k =>
      match findSquare squares k with
      | some s => if s.price = 0 then 1 else s.price
      | none => 1

/-- The action `handleSquareClick` takes after `setSelectedSquare`. -/
inductive ClickAction where
  | noSquare
  | authModal
  | editCanvas
  | viewModal
  | paymentModal
deriving DecidableEq, Repr

/-- `handleSquareClick` from the `App` component: find the square (return
when absent), open the auth modal when signed out, open the drawing canvas
when the user owns the square, open the view modal when the square belongs
to someone else and has a drawing or a non-default color, and otherwise
open the payment modal. -/
def handleSquareClick (squares : List Square) (user : Option String)
    (squareId : Nat) : ClickAction :=
  match findSquare squares squareId with
  | none => ClickAction.noSquare
  | some square =>
    match user with
    | none => ClickAction.authModal
    | some uid =>
      if square.owner == some uid then ClickAction.editCanvas
      else if square.owner.isSome &&
          (jsTruthy square.imageData || square.color != "#ffffff") then
        ClickAction.viewModal
      else ClickAction.paymentModal

/-- `handleSaveDrawing` from the `App` component (local `setSquares`
update): guard `if (!currentSquare || !user) return;`, then replace
`imageData` on the square whose id matches `currentSquare.id`.  There is
no ownership check in this function. -/
def handleSaveDrawing (squares : List Square) :
    Option Square → Option String → String → Option (List Square)
  | some cs, some _, imageData =>
      some (squares.map fun s =>
        if s.id == cs.id then { s with imageData := some imageData } else s)
  | _, _, _ => none

/-- The Firestore document written by `handleSaveDrawing`:
`setDoc(squareRef, { owner: user.uid, imageData }, { merge: true })`. -/
structure DrawingDocWrite where
  owner : String
  imageData : String
deriving DecidableEq, Repr

/-- The payload of `handleSaveDrawing`'s `setDoc` call: it writes the
`owner` field (with the editor's uid) together with `imageData`. -/
def handleSaveDrawingDoc : Option Square → Option String → String → Option DrawingDocWrite
  | some _, some uid, imageData => some { owner := uid, imageData := imageData }
  | _, _, _ => none

/-- The guard of `DrawingCanvas.startDrawing`:
`if (!isOwner || isDrawingRef.current || e.button !== 0) return;` —
drawing begins only for the owner, when not already drawing, with the left
mouse button. -/
def canStartDrawing (isOwner isDrawing : Bool) (button : Nat) : Bool :=
  isOwner && !isDrawing && (button == 0)

/-- A Firestore `squares` document as delivered to the `onSnapshot`
reconciliation: the document id parsed as an integer, and the fields the
store may hold (`finalizeSquarePurchase` writes `owner`, `price`,
`priceHistory` and, on a first purchase, `imageData`/`color`;
`handleSaveDrawing` writes `owner` and `imageData`). -/
structure SquareDoc where
  docId : Int
  owner : Option String
  price : Option Nat
  imageData : Option String
  color : Option String
  priceHistory : Option (List HistoryEntry)
deriving DecidableEq, Repr

/-- One step of the `onSnapshot` reconciliation in the `App` component:
`if (squareId >= 0 && squareId < updatedSquares.length)` then
`updatedSquares[squareId] = { ...updatedSquares[squareId], owner: data.owner,
imageData: data.imageData || null, color: data.color || '#ffffff' }`.
Note that only `owner`, `imageData` and `color` are copied: `price` and
`priceHistory` of the document are ignored. -/
def applySnapshotDoc (grid : List Square) (d : SquareDoc) : List Square :=
  if 0 ≤ d.docId ∧ d.docId < (grid.length : Int) then
    match grid.get? d.docId.toNat with
    | some old =>
        grid.set d.docId.toNat
          { old with
            owner := d.owner
            imageData := if jsTruthy d.imageData then d.imageData else none
            color := match d.color with
                     | some c => if c.isEmpty then "#ffffff" else c
                     | none => "#ffffff" }
    | none => grid
  else grid

/-- The `onSnapshot` handler of the `App` component: start from
`[...initializeGrid()]` and fold every delivered document into it. -/
def reconcileSnapshot (docs : List SquareDoc) : List Square :=
  docs.foldl applySnapshotDoc initializeGrid

/-! ### Sequences of purchases

The spec states lifetime properties ("after `n` completed ownership
transitions"), so we iterate `finalizeSquarePurchase` over a list of
buyers (each with the `Date.now()` value of their purchase).  A step whose
early-return guard fires leaves the grid unchanged. -/

/-- One purchase attempt: apply `finalizeSquarePurchase` and keep the old
grid when it early-returns. -/
def finalizeStep (k : Nat) (grid : List Square) (bu : String × Nat) : List Square :=
  match finalizeSquarePurchase grid (some k) (some bu.1) bu.2 with
  | some g2 => g2
  | none => grid

/-- Iterate purchase attempts on square `k`. -/
def finalizeSeq (g : List Square) (k : Nat) (buyers : List (String × Nat)) : List Square :=
  buyers.foldl (finalizeStep k) g

/-- The number of completed ownership transitions of square `k` along a
sequence of purchase attempts: the commits that found the cell already
owned — exactly the commits that append a `priceHistory` entry, which is
the spec's own measure of completed transitions (§3: `priceHistory.length`
equals the number of completed ownership transitions; the first purchase
of an unowned cell appends nothing and leaves the price at the listing
price). -/
def completedTransitions (k : Nat) : List Square → List (String × Nat) → Nat
  | _, [] => 0
  | g, bu :: rest =>
      (match finalizeSquarePurchase g (some k) (some bu.1) bu.2, findSquare g k with
       | some _, some q => if q.owner.isSome then 1 else 0
       | _, _ => 0) + completedTransitions k (finalizeStep k g bu) rest

/-- The expected transition log of square `k` along a sequence of purchase
attempts: one entry per completed transition, in order, recording the
previous owner, the price at the transition (the pre-purchase price) and
the purchase timestamp. -/
def completedLog (k : Nat) : List Square → List (String × Nat) → List HistoryEntry
  | _, [] => []
  | g, bu :: rest =>
      (match finalizeSquarePurchase g (some k) (some bu.1) bu.2, findSquare g k with
       | some _, some q =>
           (match q.owner with
            | some prev => [{ owner := prev, price := q.price, timestamp := bu.2 }]
            | none => [])
       | _, _ => []) ++ completedLog k (finalizeStep k g bu) rest

/-! ### Spec-side bounds-checked coordinate functions (for C9)

The spec describes `idOf`/`positionOf` as failing with `OutOfBounds`
outside the valid ranges.  These two definitions follow the spec's words;
they are compared against the source's total `calculateSquareId` /
`calculateSquarePosition`. -/

/-- Spec-side `idOf(column, row)`: row-major id `row * width + column`,
failing (`none` models the `OutOfBounds` condition) outside
`[0,width)×[0,height)`. -/
def idOf_spec (x y : Int) : Option Int :=
  if 0 ≤ x ∧ x < (GRID_SIZE : Int) ∧ 0 ≤ y ∧ y < (GRID_SIZE : Int) then
    some (y * (GRID_SIZE : Int) + x)
  else none

/-- Spec-side `positionOf(id)`: the inverse `(id mod width, id div width)`,
failing (`none` models the `OutOfBounds` condition) outside
`[0, width*height)`. -/
def positionOf_spec (id : Int) : Option SquarePosition :=
  if 0 ≤ id ∧ id < ((GRID_SIZE * GRID_SIZE : Nat) : Int) then
    some { x := id % (GRID_SIZE : Int), y := id / (GRID_SIZE : Int) }
  else none

/-! ### The claims, formalized

Each `cN_claim` is the frozen claim stated over the embedding; a
counterexample theorem below refutes the ones the code violates. -/

/-- Claim C1 as stated: whenever the cell's owner or price no longer
matches the snapshot quoted to the buyer, the commit fails and the cell is
not overwritten (the cell found after a successful commit would be the
unchanged one). -/
def c1_claim : Prop :=
  ∀ (g g2 : List Square) (k : Nat) (buyer : String) (now : Nat)
    (quotedOwner : Option String) (quotedP : Nat) (q : Square),
    findSquare g k = some q →
    (q.owner ≠ quotedOwner ∨ q.price ≠ quotedP) →
    finalizeSquarePurchase g (some k) (some buyer) now = some g2 →
    findSquare g2 k = some q

/-- Claim C2 as stated: the commit sets `owner` to the buyer and `price`
to the quoted price, and the payment modal shows that same quoted price. -/
def c2_claim : Prop :=
  ∀ (g g2 : List Square) (k : Nat) (buyer : String) (now : Nat) (q : Square),
    findSquare g k = some q →
    finalizeSquarePurchase g (some k) (some buyer) now = some g2 →
    (∃ c, findSquare g2 k = some c ∧ c.owner = some buyer ∧ c.price = quotedPrice q) ∧
    paymentModalAmount g (some k) = quotedPrice q

/-- Claim C3 as stated: on both branches of a purchase commit the cell's
artwork and fill color are exactly what they were before. -/
def c3_claim : Prop :=
  ∀ (g g2 : List Square) (k : Nat) (buyer : String) (now : Nat) (q c : Square),
    findSquare g k = some q →
    finalizeSquarePurchase g (some k) (some buyer) now = some g2 →
    findSquare g2 k = some c →
    c.imageData = q.imageData ∧ c.color = q.color

/-- Claim C4 as stated: a purchase by the current owner leaves the cell
completely unchanged (any grid produced still holds the untouched cell). -/
def c4_claim : Prop :=
  ∀ (g g2 : List Square) (k : Nat) (now : Nat) (ownerId : String) (q : Square),
    findSquare g k = some q →
    q.owner = some ownerId →
    finalizeSquarePurchase g (some k) (some ownerId) now = some g2 →
    findSquare g2 k = some q

/-- Claim C6 as stated: an artwork update by a non-owner fails — any grid
a non-owner's save produces is the unchanged grid. -/
def c6_claim : Prop :=
  ∀ (g g2 : List Square) (cs : Square) (editor img : String),
    cs.owner ≠ some editor →
    handleSaveDrawing g (some cs) (some editor) img = some g2 →
    g2 = g

/-- Claim C9 as stated: the source's id/position computations agree
everywhere with the spec-side bounds-checked ones — in particular they
fail (return no value) out of bounds. -/
def c9_claim : Prop :=
  (∀ x y : Int, some (calculateSquareId x y) = idOf_spec x y) ∧
  (∀ id : Int, some (calculateSquarePosition id) = positionOf_spec id)

/-! ### Concrete cells and grids used in counterexamples and witnesses -/

/-- C1: the cell as concurrently changed after the quote — owner `X`,
price `2` — while the buyer was quoted `(none, 1)`. -/
def c1Square : Square :=
  { id := 1, owner := some "X", price := 2, color := "#ffffff",
    imageData := none, priceHistory := [] }

def c1Grid : List Square := [c1Square]

/-- What `finalizeSquarePurchase` actually makes of `c1Grid` for buyer
`B`: owner overwritten, price doubled, history appended. -/
def c1After : List Square :=
  [{ id := 1, owner := some "B", price := 4, color := "#ffffff",
     imageData := none,
     priceHistory := [{ owner := "X", price := 2, timestamp := 0 }] }]

/-- C2: an owned square with no drawing and the default color — the state
in which `handleSquareClick` routes a non-owner to the payment modal. -/
def c2Square : Square :=
  { id := 1, owner := some "A", price := 1, color := "#ffffff",
    imageData := none, priceHistory := [] }

def c2Grid : List Square := [c2Square]

def c2After : List Square :=
  [{ id := 1, owner := some "B", price := 2, color := "#ffffff",
     imageData := none,
     priceHistory := [{ owner := "A", price := 1, timestamp := 0 }] }]

/-- C3: an unowned square carrying artwork and a non-default color. -/
def c3Square : Square :=
  { id := 1, owner := none, price := 1, color := "#123456",
    imageData := some "art", priceHistory := [] }

def c3Grid : List Square := [c3Square]

def c3After : List Square :=
  [{ id := 1, owner := some "B", price := 1, color := "#ffffff",
     imageData := none, priceHistory := [] }]

/-- C3 witness: an owned square carrying artwork. -/
def c3OwnedSquare : Square :=
  { id := 1, owner := some "A", price := 1, color := "#123456",
    imageData := some "art", priceHistory := [] }

def c3OwnedGrid : List Square := [c3OwnedSquare]

def c3OwnedAfter : List Square :=
  [{ id := 1, owner := some "B", price := 2, color := "#123456",
     imageData := some "art",
     priceHistory := [{ owner := "A", price := 1, timestamp := 0 }] }]

/-- C4: a square owned by `A`, about to be "purchased" by `A` again. -/
def c4Square : Square :=
  { id := 1, owner := some "A", price := 1, color := "#ffffff",
    imageData := none, priceHistory := [] }

def c4Grid : List Square := [c4Square]

def c4After : List Square :=
  [{ id := 1, owner := some "A", price := 2, color := "#ffffff",
     imageData := none,
     priceHistory := [{ owner := "A", price := 1, timestamp := 0 }] }]

/-- C5: a Firestore document carrying a price and a price history — the
fields `finalizeSquarePurchase` persists — for square `5`. -/
def c5Doc : SquareDoc :=
  { docId := 5, owner := some "A", price := some 4, imageData := none,
    color := none,
    priceHistory := some [{ owner := "Z", price := 2, timestamp := 3 }] }

/-- C6: a square owned by `A`. -/
def c6Square : Square :=
  { id := 1, owner := some "A", price := 1, color := "#ffffff",
    imageData := none, priceHistory := [] }

def c6Grid : List Square := [c6Square]

def c6After : List Square := [{ c6Square with imageData := some "img" }]

/-- C7: a fresh default cell with id `1`. -/
def c7Square : Square :=
  { id := 1, owner := none, price := 1, color := "#ffffff",
    imageData := none, priceHistory := [] }

def c7Grid : List Square := [c7Square]

/-- C8: a fresh default cell with id `1` (separate copy for the C8
witness). -/
def c8Square : Square :=
  { id := 1, owner := none, price := 1, color := "#ffffff",
    imageData := none, priceHistory := [] }

def c8Grid : List Square := [c8Square]

/-- C10: a two-cell grid; square `2` must survive a purchase of square
`1` untouched. -/
def c10Grid : List Square :=
  [{ id := 1, owner := none, price := 1, color := "#ffffff",
     imageData := none, priceHistory := [] },
   { id := 2, owner := some "Z", price := 3, color := "#00ff00",
     imageData := some "zart", priceHistory := [] }]

def c10After : List Square :=
  [{ id := 1, owner := some "B", price := 1, color := "#ffffff",
     imageData := none, priceHistory := [] },
   { id := 2, owner := some "Z", price := 3, color := "#00ff00",
     imageData := some "zart", priceHistory := [] }]

/-! ### Basic lemmas about the purchase update -/

theorem purchaseUpdate_id (k : Nat) (o : Bool) (p : Nat) (b : String)
    (n : Nat) (s : Square) : (purchaseUpdate k o p b n s).id = s.id := by
  unfold purchaseUpdate
  split <;> rfl

theorem findSquare_map_purchaseUpdate (g : List Square) (k : Nat) (o : Bool)
    (p : Nat) (b : String) (n : Nat) :
    findSquare (g.map (purchaseUpdate k o p b n)) k
      = (findSquare g k).map (purchaseUpdate k o p b n) := by
  unfold findSquare
  rw [List.find?_map]
  have hpred : ((fun s : Square => s.id == k) ∘ purchaseUpdate k o p b n)
      = (fun s : Square => s.id == k) := by
    funext s
    simp [Function.comp, purchaseUpdate_id]
  rw [hpred]

theorem findSquare_some_id {g : List Square} {k : Nat} {q : Square}
    (h : findSquare g k = some q) : (q.id == k) = true := by
  unfold findSquare at h
  simpa using List.find?_some h

theorem purchaseUpdate_found {k : Nat} {q : Square} (h : (q.id == k) = true)
    (b : String) (n : Nat) :
    purchaseUpdate k q.owner.isSome (quotedPrice q) b n q = purchaseCell b n q := by
  unfold purchaseUpdate purchaseCell
  rw [h]
  simp

theorem finalize_eq_some {g : List Square} {k : Nat} {q : Square}
    (hk : ¬ k = 0) (hq : findSquare g k = some q) (b : String) (n : Nat) :
    finalizeSquarePurchase g (some k) (some b) n
      = some (g.map (purchaseUpdate k q.owner.isSome (quotedPrice q) b n)) := by
  simp only [finalizeSquarePurchase]
  rw [if_neg hk, hq]

theorem finalize_some_inv {g g' : List Square} {k : Nat} {b : String} {n : Nat}
    (h : finalizeSquarePurchase g (some k) (some b) n = some g') :
    ¬ k = 0 ∧ ∃ q, findSquare g k = some q ∧
      g' = g.map (purchaseUpdate k q.owner.isSome (quotedPrice q) b n) := by
  simp only [finalizeSquarePurchase] at h
  by_cases hk : k = 0
  · rw [if_pos hk] at h
    exact absurd h (by simp)
  · rw [if_neg hk] at h
    refine ⟨hk, ?_⟩
    cases hq : findSquare g k with
    | none => rw [hq] at h; exact absurd h (by simp)
    | some q =>
        rw [hq] at h
        exact ⟨q, rfl, (Option.some_inj.mp h).symm⟩

/-- The central bridge lemma: a successful `finalizeSquarePurchase` turns
the found square into `purchaseCell buyer now q` and that square is again
what `findSquare` returns on the updated grid. -/
theorem finalize_find {g g' : List Square} {k : Nat} {b : String} {n : Nat}
    {q : Square} (hq : findSquare g k = some q)
    (h : finalizeSquarePurchase g (some k) (some b) n = some g') :
    findSquare g' k = some (purchaseCell b n q) := by
  obtain ⟨-, q', hq', rfl⟩ := finalize_some_inv h
  rw [hq'] at hq
  cases Option.some_inj.mp hq
  rw [findSquare_map_purchaseUpdate, hq', Option.map_some',
    purchaseUpdate_found (findSquare_some_id hq') b n]

/-! ### Lemmas about purchase sequences -/

/-- Through any sequence of purchase attempts, the tracked cell's final
price is its starting price times `2 ^ (completed transitions)` and its
final history is its starting history extended by the transition log. -/
theorem finalizeSeq_spec (buyers : List (String × Nat)) :
    ∀ (g : List Square) (k : Nat) (q : Square),
      findSquare g k = some q →
      ∃ c, findSquare (finalizeSeq g k buyers) k = some c ∧
        c.price = q.price * 2 ^ completedTransitions k g buyers ∧
        c.priceHistory = q.priceHistory ++ completedLog k g buyers := by
  induction buyers with
  | nil =>
      intro g k q hq
      exact ⟨q, by simpa [finalizeSeq] using hq,
        by simp [completedTransitions], by simp [completedLog]⟩
  | cons bu rest ih =>
      intro g k q hq
      have hseq : finalizeSeq g k (bu :: rest)
          = finalizeSeq (finalizeStep k g bu) k rest := rfl
      cases hfin : finalizeSquarePurchase g (some k) (some bu.1) bu.2 with
      | none =>
          have hstep : finalizeStep k g bu = g := by simp [finalizeStep, hfin]
          have hct : completedTransitions k g (bu :: rest)
              = completedTransitions k g rest := by
            simp [completedTransitions, hfin, hstep]
          have hcl : completedLog k g (bu :: rest) = completedLog k g rest := by
            simp [completedLog, hfin, hstep]
          rw [hseq, hstep, hct, hcl]
          exact ih g k q hq
      | some g2 =>
          have hstep : finalizeStep k g bu = g2 := by simp [finalizeStep, hfin]
          have hfind2 : findSquare g2 k = some (purchaseCell bu.1 bu.2 q) :=
            finalize_find hq hfin
          obtain ⟨c, hc, hprice, hhist⟩ := ih g2 k (purchaseCell bu.1 bu.2 q) hfind2
          refine ⟨c, ?_, ?_, ?_⟩
          · rw [hseq, hstep]; exact hc
          · have hct : completedTransitions k g (bu :: rest)
                = (if q.owner.isSome then 1 else 0)
                  + completedTransitions k g2 rest := by
              simp [completedTransitions, hfin, hq, hstep]
            rw [hct, hprice]
            cases ho : q.owner with
            | none => simp [purchaseCell, quotedPrice, ho]
            | some prev =>
                simp only [purchaseCell, quotedPrice, ho, Option.isSome_some,
                  if_true]
                ring
          · have hcl : completedLog k g (bu :: rest)
                = (match q.owner with
                   | some prev => [{ owner := prev, price := q.price, timestamp := bu.2 }]
                   | none => []) ++ completedLog k g2 rest := by
              simp [completedLog, hfin, hq, hstep]
            rw [hcl, hhist]
            cases ho : q.owner with
            | none => simp [purchaseCell, ho]
            | some prev => simp [purchaseCell, ho, List.append_assoc]

/-- The transition log has one entry per completed transition. -/
theorem completedLog_length (buyers : List (String × Nat)) :
    ∀ (g : List Square) (k : Nat),
      (completedLog k g buyers).length = completedTransitions k g buyers := by
  induction buyers with
  | nil => intro g k; simp [completedLog, completedTransitions]
  | cons bu rest ih =>
      intro g k
      cases hfin : finalizeSquarePurchase g (some k) (some bu.1) bu.2 with
      | none =>
          simp [completedLog, completedTransitions, hfin, ih]
      | some g2 =>
          cases hq : findSquare g k with
          | none => simp [completedLog, completedTransitions, hfin, hq, ih]
          | some q =>
              cases ho : q.owner with
              | none => simp [completedLog, completedTransitions, hfin, hq, ho, ih]
              | some prev =>
                  simp [completedLog, completedTransitions, hfin, hq, ho, ih,
                    Nat.add_comm]

/-! ### Claim C1 — stale-quote detection -/

/-- Claim C1 is false on the code: with cell 1 quoted as `(unowned, 1)` and
concurrently changed to `(owner X, price 2)`, `finalizeSquarePurchase`
neither fails nor leaves the cell alone — it commits and overwrites the
cell (owner becomes the buyer `B`, price becomes `4`). -/
theorem c1_counterexample : ¬ c1_claim := fun h =>
  absurd
    (h c1Grid c1After 1 "B" 0 none 1 c1Square (by decide)
      (Or.inl (by decide)) (by decide))
    (by decide)

/-- Claim C1 amended: `finalizeSquarePurchase` performs no stale-quote
re-validation and has no `Conflict` outcome.  Whenever a user is present
and the selected square (with nonzero id) is found in the local snapshot,
it commits unconditionally, recomputing the price from that snapshot and
setting the owner to the buyer — regardless of whether owner or price
still match what was earlier quoted. -/
theorem c1_always_commits (g : List Square) (k : Nat) (buyer : String)
    (now : Nat) (q : Square) (hk : k ≠ 0) (hq : findSquare g k = some q) :
    ∃ g2, finalizeSquarePurchase g (some k) (some buyer) now = some g2 ∧
      findSquare g2 k = some (purchaseCell buyer now q) :=
  ⟨_, finalize_eq_some hk hq buyer now,
    finalize_find hq (finalize_eq_some hk hq buyer now)⟩

theorem c1_always_commits_witness :
    ∃ g2, finalizeSquarePurchase c1Grid (some 1) (some "B") 0 = some g2 ∧
      findSquare g2 1 = some (purchaseCell "B" 0 c1Square) :=
  c1_always_commits c1Grid 1 "B" 0 c1Square (by decide) (by decide)

/-! ### Claim C2 — quoted price and displayed amount -/

/-- Claim C2 is false on the code: for cell 1 owned by `A` at price 1 the
commit correctly uses the doubled quoted price 2, but the `PaymentModal`
`amount` prop shows the undoubled current price 1, not the quoted price. -/
theorem c2_counterexample : ¬ c2_claim := fun h =>
  absurd ((h c2Grid c2After 1 "B" 0 c2Square (by decide) (by decide)).2)
    (by decide)

/-- Claim C2 amended: the quoted price is the current price for an unowned
cell and double it for an owned cell, and the commit sets
`owner = buyer` and `price = quotedPrice`; but the amount shown in the
payment modal is the cell's current (pre-double) price, which equals the
quoted price only when the cell is unowned. -/
theorem c2_quote_commit_display (g g2 : List Square) (k : Nat)
    (buyer : String) (now : Nat) (q : Square)
    (hq : findSquare g k = some q)
    (hfin : finalizeSquarePurchase g (some k) (some buyer) now = some g2)
    (hp : q.price ≠ 0) :
    findSquare g2 k = some (purchaseCell buyer now q) ∧
    (purchaseCell buyer now q).owner = some buyer ∧
    (purchaseCell buyer now q).price = quotedPrice q ∧
    paymentModalAmount g (some k) = q.price := by
  refine ⟨finalize_find hq hfin, rfl, rfl, ?_⟩
  obtain ⟨hk, -⟩ := finalize_some_inv hfin
  cases k with
  | zero => exact absurd rfl hk
  | succ m =>
      simp only [paymentModalAmount]
      rw [hq]
      simp [hp]

theorem c2_quote_commit_display_witness :
    findSquare c2After 1 = some (purchaseCell "B" 0 c2Square) ∧
    (purchaseCell "B" 0 c2Square).owner = some "B" ∧
    (purchaseCell "B" 0 c2Square).price = quotedPrice c2Square ∧
    paymentModalAmount c2Grid (some 1) = c2Square.price :=
  c2_quote_commit_display c2Grid c2After 1 "B" 0 c2Square (by decide)
    (by decide) (by decide)

/-! ### Claim C3 — artwork and fill color across a purchase -/

/-- Claim C3 is false on the code: the unowned branch of
`finalizeSquarePurchase` resets artwork and color.  Cell 1 is unowned with
artwork `"art"` and color `"#123456"` before the purchase; after the
commit its artwork is `null` and its color `"#ffffff"`. -/
theorem c3_counterexample : ¬ c3_claim := fun h =>
  absurd
    (h c3Grid c3After 1 "B" 0 c3Square
      { id := 1, owner := some "B", price := 1, color := "#ffffff",
        imageData := none, priceHistory := [] }
      (by decide) (by decide) (by decide))
    (by decide)

/-- Claim C3 amended: on the already-owned branch the purchase preserves
artwork (bit-identical) and fill color exactly; on the unowned branch the
local update sets them to the defaults (`null` artwork, `#ffffff`) — the
values an unowned cell already has in the default state. -/
theorem c3_artwork_branches (g g2 : List Square) (k : Nat) (buyer : String)
    (now : Nat) (q : Square) (hq : findSquare g k = some q)
    (hfin : finalizeSquarePurchase g (some k) (some buyer) now = some g2) :
    findSquare g2 k = some (purchaseCell buyer now q) ∧
    (q.owner.isSome = true →
      (purchaseCell buyer now q).imageData = q.imageData ∧
      (purchaseCell buyer now q).color = q.color) ∧
    (q.owner = none →
      (purchaseCell buyer now q).imageData = none ∧
      (purchaseCell buyer now q).color = "#ffffff") := by
  refine ⟨finalize_find hq hfin, ?_, ?_⟩
  · intro ho; simp [purchaseCell, ho]
  · intro ho; simp [purchaseCell, ho]

theorem c3_artwork_branches_witness :
    findSquare c3OwnedAfter 1 = some (purchaseCell "B" 0 c3OwnedSquare) ∧
    (c3OwnedSquare.owner.isSome = true →
      (purchaseCell "B" 0 c3OwnedSquare).imageData = c3OwnedSquare.imageData ∧
      (purchaseCell "B" 0 c3OwnedSquare).color = c3OwnedSquare.color) ∧
    (c3OwnedSquare.owner = none →
      (purchaseCell "B" 0 c3OwnedSquare).imageData = none ∧
      (purchaseCell "B" 0 c3OwnedSquare).color = "#ffffff") :=
  c3_artwork_branches c3OwnedGrid c3OwnedAfter 1 "B" 0 c3OwnedSquare
    (by decide) (by decide)

/-! ### Claim C4 — self-purchase -/

/-- Claim C4 is false on the code: `finalizeSquarePurchase` has no
`AlreadyOwner` check.  For cell 1 owned by `A` at price 1, a purchase by
`A` commits and mutates the cell: the price doubles to 2 and a history
entry is appended. -/
theorem c4_counterexample : ¬ c4_claim := fun h =>
  absurd (h c4Grid c4After 1 0 "A" c4Square (by decide) (by decide) (by decide))
    (by decide)

/-- Claim C4 amended: self-purchase is only prevented at the UI routing
level — `handleSquareClick` sends the owner to the drawing editor, never
to the payment flow.  `finalizeSquarePurchase` itself has no
`AlreadyOwner` rejection: invoked by the current owner it commits,
doubling the price and appending a history entry naming the owner. -/
theorem c4_owner_routing (g g2 : List Square) (k : Nat) (uid : String)
    (now : Nat) (q : Square) (hq : findSquare g k = some q)
    (ho : q.owner = some uid) :
    handleSquareClick g (some uid) k = ClickAction.editCanvas ∧
    (finalizeSquarePurchase g (some k) (some uid) now = some g2 →
      findSquare g2 k = some
        { q with
          owner := some uid
          price := q.price * 2
          priceHistory := q.priceHistory ++
            [{ owner := uid, price := q.price, timestamp := now }] }) := by
  constructor
  · simp [handleSquareClick, hq, ho]
  · intro hfin
    rw [finalize_find hq hfin]
    congr 1
    simp [purchaseCell, quotedPrice, ho]

theorem c4_owner_routing_witness :
    handleSquareClick c4Grid (some "A") 1 = ClickAction.editCanvas ∧
    findSquare c4After 1 = some
      { c4Square with
        owner := some "A"
        price := c4Square.price * 2
        priceHistory := c4Square.priceHistory ++
          [{ owner := "A", price := c4Square.price, timestamp := 0 }] } :=
  ⟨(c4_owner_routing c4Grid c4After 1 "A" 0 c4Square (by decide) (by decide)).1,
   (c4_owner_routing c4Grid c4After 1 "A" 0 c4Square (by decide) (by decide)).2
     (by decide)⟩

/-! ### Claim C5 — snapshot reconciliation -/

theorem initializeGrid_getElem (n : Nat) (h : n < GRID_SIZE * GRID_SIZE) :
    initializeGrid[n]?
      = some
          { id := n, owner := none, price := 1, color := "#ffffff",
            imageData := none, priceHistory := [] } := by
  simp [initializeGrid, List.getElem?_map, List.getElem?_range h]

theorem initializeGrid_length : initializeGrid.length = GRID_SIZE * GRID_SIZE := by
  simp [initializeGrid]

/-- Claim C5, evaluated at the failing input: a Firestore document for
square 5 carrying `owner = "A"`, `price = 4` and a one-entry
`priceHistory` — exactly the fields `finalizeSquarePurchase` persists.
The reconciliation copies the owner but silently drops the provided
`price` and `priceHistory`, leaving the defaults `1` and `[]` in the
resulting grid, contrary to the spec's "merge its provided fields onto
the default cell". -/
theorem c5_reconcile_drops_price_and_history :
    (reconcileSnapshot [c5Doc]).get? 5
      = some { id := 5, owner := some "A", price := 1, color := "#ffffff",
               imageData := none, priceHistory := [] } := by
  rw [reconcileSnapshot, List.foldl_cons, List.foldl_nil]
  unfold applySnapshotDoc
  rw [if_pos]
  case hc =>
    rw [initializeGrid_length]
    constructor
    · norm_num [c5Doc]
    · norm_num [c5Doc, GRID_SIZE]
  have h5 : initializeGrid.get? (Int.toNat c5Doc.docId)
      = some { id := 5, owner := none, price := 1, color := "#ffffff",
               imageData := none, priceHistory := [] } := by
    rw [List.get?_eq_getElem?]
    exact initializeGrid_getElem 5 (by norm_num [GRID_SIZE])
  rw [h5]
  have hlt : (5 : Nat) < initializeGrid.length := by
    rw [initializeGrid_length]; norm_num [GRID_SIZE]
  rw [List.get?_eq_getElem?]
  simp [c5Doc, jsTruthy, hlt]

/-! ### Claim C6 — artwork update and ownership -/

/-- Claim C6 is false on the code: `handleSaveDrawing` has no `NotOwner`
check.  For cell 1 owned by `A`, a save by editor `B` does not fail and
does not leave the grid unchanged — it installs `B`'s image data. -/
theorem c6_counterexample : ¬ c6_claim := fun h =>
  absurd (h c6Grid c6After c6Square "B" "img" (by decide) (by decide))
    (by decide)

/-- Claim C6 amended: `handleSaveDrawing` itself performs no ownership
check — ownership is enforced upstream (`handleSquareClick` opens the
editor only for the owner, and `DrawingCanvas.startDrawing` refuses to
draw unless `isOwner`).  On any save, the local update changes only the
`imageData` field of the matching cell (id, owner, price, color and
priceHistory are untouched, other cells unchanged), and the Firestore
write consists of the `owner` field — set to the editor's uid — together
with `imageData`; `price` and `priceHistory` are not written. -/
theorem c6_save_behavior (g : List Square) (cs : Square) (uid img : String)
    (g2 : List Square)
    (hsave : handleSaveDrawing g (some cs) (some uid) img = some g2) :
    g2.length = g.length ∧
    (∀ (i : Nat) (hi : i < g.length) (hi2 : i < g2.length),
       (g[i].id = cs.id → g2[i] = { g[i] with imageData := some img }) ∧
       (g[i].id ≠ cs.id → g2[i] = g[i])) ∧
    handleSaveDrawingDoc (some cs) (some uid) img
      = some { owner := uid, imageData := img } ∧
    (∀ (d : Bool) (b : Nat), canStartDrawing false d b = false) := by
  have hg2 : g2 = g.map (fun s =>
      if s.id == cs.id then { s with imageData := some img } else s) := by
    simpa [handleSaveDrawing] using hsave.symm
  subst hg2
  refine ⟨by simp, ?_, rfl, fun d b => rfl⟩
  intro i hi hi2
  constructor
  · intro hid; simp [hid]
  · intro hid; simp [hid]

theorem c6_save_behavior_witness :
    handleSaveDrawingDoc (some c6Square) (some "A") "img"
      = some { owner := "A", imageData := "img" } ∧
    c6After.length = c6Grid.length :=
  ⟨(c6_save_behavior c6Grid c6Square "A" "img" c6After (by decide)).2.2.1,
   (c6_save_behavior c6Grid c6Square "A" "img" c6After (by decide)).1⟩

/-! ### Claim C7 — price doubling -/

/-- Claim C7 confirmed: starting from a cell in the initial state (unowned,
price `INITIAL_SQUARE_PRICE = 1`), after any sequence of purchase attempts
whose number of completed ownership transitions is `n` (the commits that
found the cell already owned — the spec's transition count, §3/§8; a first
purchase of an unowned cell keeps the listing price and is not a
transition), the cell's price is `INITIAL_SQUARE_PRICE * 2 ^ n`. -/
theorem c7_price_after_transitions (buyers : List (String × Nat))
    (g : List Square) (k : Nat) (q : Square)
    (hq : findSquare g k = some q) (_howner : q.owner = none)
    (hprice : q.price = INITIAL_SQUARE_PRICE) :
    (findSquare (finalizeSeq g k buyers) k).map Square.price
      = some (INITIAL_SQUARE_PRICE * 2 ^ completedTransitions k g buyers) := by
  obtain ⟨c, hc, hp, -⟩ := finalizeSeq_spec buyers g k q hq
  rw [hc, Option.map_some', hp, hprice]

theorem c7_price_after_transitions_witness :
    (findSquare (finalizeSeq c7Grid 1 [("A", 10), ("B", 20), ("C", 30)]) 1).map
        Square.price
      = some (INITIAL_SQUARE_PRICE
          * 2 ^ completedTransitions 1 c7Grid [("A", 10), ("B", 20), ("C", 30)]) :=
  c7_price_after_transitions [("A", 10), ("B", 20), ("C", 30)] c7Grid 1
    c7Square (by decide) (by decide) (by decide)

/-! ### Claim C8 — price history length and content -/

/-- Claim C8 confirmed: starting from a cell with empty history, after any
sequence of purchase attempts the cell's `priceHistory` is exactly the
transition log — one entry per completed ownership transition, in
transition order, each recording the previous owner and the price at the
transition — so its length is exactly the number of completed
transitions. -/
theorem c8_history_after_transitions (buyers : List (String × Nat))
    (g : List Square) (k : Nat) (q : Square)
    (hq : findSquare g k = some q) (hhist : q.priceHistory = []) :
    (findSquare (finalizeSeq g k buyers) k).map Square.priceHistory
      = some (completedLog k g buyers) ∧
    (completedLog k g buyers).length = completedTransitions k g buyers := by
  obtain ⟨c, hc, -, hh⟩ := finalizeSeq_spec buyers g k q hq
  exact ⟨by rw [hc, Option.map_some', hh, hhist, List.nil_append],
    completedLog_length buyers g k⟩

theorem c8_history_after_transitions_witness :
    (findSquare (finalizeSeq c8Grid 1 [("A", 10), ("B", 20)]) 1).map
        Square.priceHistory
      = some (completedLog 1 c8Grid [("A", 10), ("B", 20)]) ∧
    (completedLog 1 c8Grid [("A", 10), ("B", 20)]).length
      = completedTransitions 1 c8Grid [("A", 10), ("B", 20)] :=
  c8_history_after_transitions [("A", 10), ("B", 20)] c8Grid 1 c8Square
    (by decide) (by decide)

/-! ### Claim C9 — bounds behavior of the coordinate functions -/

/-- Claim C9 is false on the code: `calculateSquareId` and
`calculateSquarePosition` perform no bounds check, so they do not agree
with the spec-side `OutOfBounds`-failing functions — at `(GRID_SIZE, 0)`
the code returns the ordinary id `120` where the spec demands failure. -/
theorem c9_counterexample : ¬ c9_claim := fun h =>
  absurd (h.1 (GRID_SIZE : Int) 0) (by decide)

/-- Claim C9 amended: the source's `calculateSquareId` and
`calculateSquarePosition` are total, with no `OutOfBounds` failure:
bounds checking lives in the separate predicates `isValidSquarePosition` /
`isValidSquareId`.  On valid inputs the code agrees with the spec-side
functions and they are inverse to each other; out of bounds the code
silently returns ordinary values — `idOf(GRID_SIZE, 0)` is `120` (which
aliases the valid cell `(0,1)`) and `positionOf(-1)` is `(-1, -1)`. -/
theorem c9_bounds_behavior (x y id : Int) :
    (isValidSquarePosition x y = true →
      idOf_spec x y = some (calculateSquareId x y)) ∧
    (isValidSquarePosition x y = false → idOf_spec x y = none) ∧
    (isValidSquareId id = true →
      positionOf_spec id = some (calculateSquarePosition id)) ∧
    (isValidSquareId id = false → positionOf_spec id = none) ∧
    (isValidSquarePosition x y = true →
      isValidSquareId (calculateSquareId x y) = true ∧
      calculateSquarePosition (calculateSquareId x y) = { x := x, y := y }) ∧
    calculateSquareId (GRID_SIZE : Int) 0 = (GRID_SIZE : Int) ∧
    calculateSquarePosition (-1) = { x := -1, y := -1 } := by
  have hgrid : ((GRID_SIZE : Nat) : Int) = 120 := by norm_num [GRID_SIZE]
  refine ⟨?_, ?_, ?_, ?_, ?_, by decide, by decide⟩
  · intro hv
    simp only [isValidSquarePosition, Bool.and_eq_true, decide_eq_true_eq] at hv
    simp only [idOf_spec, calculateSquareId]
    rw [if_pos ⟨hv.1.1, hv.1.2, hv.2.1, hv.2.2⟩]
  · intro hv
    simp only [idOf_spec]
    rw [if_neg]
    intro hcond
    have htrue : isValidSquarePosition x y = true := by
      simp only [isValidSquarePosition, Bool.and_eq_true, decide_eq_true_eq]
      exact ⟨⟨hcond.1, hcond.2.1⟩, hcond.2.2.1, hcond.2.2.2⟩
    simp [htrue] at hv
  · intro hv
    simp only [isValidSquareId, Bool.and_eq_true, decide_eq_true_eq] at hv
    simp only [positionOf_spec, calculateSquarePosition]
    rw [if_pos ⟨hv.1, hv.2⟩]
    rw [Int.tmod_eq_emod hv.1 (by rw [hgrid]; norm_num),
      Int.fdiv_eq_ediv id (by rw [hgrid]; norm_num)]
  · intro hv
    simp only [positionOf_spec]
    rw [if_neg]
    intro hcond
    have htrue : isValidSquareId id = true := by
      simp only [isValidSquareId, Bool.and_eq_true, decide_eq_true_eq]
      exact hcond
    simp [htrue] at hv
  · intro hv
    simp only [isValidSquarePosition, Bool.and_eq_true, decide_eq_true_eq] at hv
    obtain ⟨⟨hx0, hx1⟩, hy0, hy1⟩ := hv
    rw [hgrid] at hx1 hy1
    have hid0 : 0 ≤ calculateSquareId x y := by
      simp only [calculateSquareId]
      rw [hgrid]
      nlinarith
    constructor
    · simp only [isValidSquareId, calculateSquareId, Bool.and_eq_true,
        decide_eq_true_eq]
      refine ⟨by rw [hgrid]; nlinarith, ?_⟩
      push_cast
      rw [hgrid]
      nlinarith
    · simp only [calculateSquarePosition, calculateSquareId]
      rw [Int.tmod_eq_emod (by simpa [calculateSquareId] using hid0)
          (by rw [hgrid]; norm_num),
        Int.fdiv_eq_ediv _ (by rw [hgrid]; norm_num)]
      rw [hgrid]
      have hxmod : (y * 120 + x) % 120 = x := by omega
      have hydiv : (y * 120 + x) / 120 = y := by omega
      rw [hxmod, hydiv]

theorem c9_bounds_behavior_witness :
    idOf_spec 3 4 = some (calculateSquareId 3 4) ∧
    positionOf_spec 77 = some (calculateSquarePosition 77) ∧
    calculateSquarePosition (calculateSquareId 3 4) = { x := 3, y := 4 } :=
  ⟨(c9_bounds_behavior 3 4 77).1 (by decide),
   (c9_bounds_behavior 3 4 77).2.2.1 (by decide),
   ((c9_bounds_behavior 3 4 77).2.2.2.2.1 (by decide)).2⟩

/-! ### Claim C10 — frame property of a purchase -/

/-- Claim C10 confirmed: the local update of `finalizeSquarePurchase` maps
over the grid and returns every cell whose id differs from the selected
one unchanged — same owner, price, color, imageData and priceHistory. -/
theorem c10_other_cells_unchanged (g : List Square) (k : Nat)
    (buyer : String) (now : Nat) (g2 : List Square)
    (hfin : finalizeSquarePurchase g (some k) (some buyer) now = some g2) :
    g2.length = g.length ∧
    ∀ (i : Nat) (hi : i < g.length) (hi2 : i < g2.length),
      g[i].id ≠ k → g2[i] = g[i] := by
  obtain ⟨-, q, hq, rfl⟩ := finalize_some_inv hfin
  refine ⟨by simp, ?_⟩
  intro i hi hi2 hne
  simp [purchaseUpdate, hne]

theorem c10_other_cells_unchanged_witness :
    c10After.length = c10Grid.length ∧
    c10After.get ⟨1, by decide⟩ = c10Grid.get ⟨1, by decide⟩ := by
  have h := c10_other_cells_unchanged c10Grid 1 "B" 5 c10After (by decide)
  have h2 := h.2 1 (by decide) (by decide) (by decide)
  exact ⟨h.1, by simpa [List.get_eq_getElem] using h2⟩

end DrawInTheBox
